import Mathlib

/-!
Shallow embedding of the classification-performance metrics of the evidently
repository excerpt: `ClassificationQualityMetric`
(`src/evidently/metrics/classification_performance/classification_quality_metric.py`)
and `ClassificationDummyMetric`
(`src/evidently/metrics/classification_performance/classification_dummy_metric.py`).

Python floats are modelled as rationals and a fallible `calculate` as
`Except String`.  External collaborators (pandas, numpy, sklearn and the shared
calculator module `evidently.calculations.classification_performance`, none of
which are part of the provided sources) are modelled as an abstract bundle of
functions (`Externals`) over which the embedded `calculate` bodies are
parameterised; the theorems quantify over that bundle.
-/

namespace Evidently

/-- Flat record of scalar classification quality metrics, the
`DatasetClassificationQuality` dataclass produced by the shared calculator
module (imported by both source files, not itself part of the sources). -/
structure DatasetClassificationQuality where
  accuracy : ℚ
  precision : ℚ
  «recall» : ℚ
  f1 : ℚ
  roc_auc : Option ℚ
  log_loss : Option ℚ
  tpr : Option ℚ
  tnr : Option ℚ
  fpr : Option ℚ
  fnr : Option ℚ
deriving Repr, DecidableEq

/-- The `PredictionData` record of the shared calculator module: resolved
predictions, an optional per-class probability table (kept abstract as the
type parameter `Probas`) and the ordered list of class labels. -/
structure PredictionData (Label Probas : Type) where
  predictions : List Label
  prediction_probas : Option Probas
  labels : List Label
deriving Repr, DecidableEq

/-- One per-class row of the dummy metric's `metrics_matrix`
(keys precision, recall and f1-score of the Python dict). -/
structure ClassEntry where
  precision : ℚ
  «recall» : ℚ
  f1_score : ℚ
deriving Repr, DecidableEq

/-- The `metrics_matrix` value of `ClassificationDummyMetric.calculate`: either
the sklearn `classification_report` dict (kept abstract as `Report`, lines
88-92) or the two-label corrected dict built at lines 114-125 of
`classification_dummy_metric.py`. -/
inductive MetricsMatrix (Label Report : Type) where
  | fromReport (r : Report)
  | corrected (posLabel negLabel : Label) (posEntry negEntry : ClassEntry)
deriving Repr, DecidableEq

/-- Result dataclass of `ClassificationDummyMetric` (lines 29-34 of
`classification_dummy_metric.py`). -/
structure ClassificationDummyMetricResults (Label Report : Type) where
  dummy : DatasetClassificationQuality
  by_reference_dummy : Option DatasetClassificationQuality
  model_quality : Option DatasetClassificationQuality
  metrics_matrix : MetricsMatrix Label Report
deriving Repr, DecidableEq

/-- Result dataclass of `ClassificationQualityMetric` (lines 21-25 of
`classification_quality_metric.py`). -/
structure ClassificationQualityMetricResult where
  current : DatasetClassificationQuality
  reference : Option DatasetClassificationQuality
  target_name : String
deriving Repr, DecidableEq

/-- Configuration state of the `ClassificationConfusionMatrix` dependency as
set by its constructor (threshold and k arguments). -/
structure ClassificationConfusionMatrixCfg where
  threshold : Option ℚ
  k : Option ℚ
deriving Repr, DecidableEq

/-- Configuration state of a `ClassificationQualityMetric` instance after
`__init__` (lines 31-39 of `classification_quality_metric.py`). -/
structure ClassificationQualityMetricCfg where
  threshold : Option ℚ
  k : Option ℚ
  confusion_matrix_metric : ClassificationConfusionMatrixCfg
deriving Repr, DecidableEq

/-- `ClassificationQualityMetric.__init__(threshold, k)`: stores the arguments
and builds the confusion-matrix dependency with the same threshold and k. -/
def ClassificationQualityMetricCfg.init (threshold k : Option ℚ) :
    ClassificationQualityMetricCfg :=
  { threshold := threshold, k := k
    confusion_matrix_metric := { threshold := threshold, k := k } }

/-- Configuration state of a `ClassificationDummyMetric` instance after
`__init__` (lines 40-48 of `classification_dummy_metric.py`). -/
structure ClassificationDummyMetricCfg where
  threshold : Option ℚ
  k : Option ℚ
  quality_metric : ClassificationQualityMetricCfg
deriving Repr, DecidableEq

/-- `ClassificationDummyMetric.__init__(threshold, k)`: stores the arguments
and sets `self.quality_metric = ClassificationQualityMetric()` with default
(absent) threshold and k arguments (line 48). -/
def ClassificationDummyMetricCfg.init (threshold k : Option ℚ) :
    ClassificationDummyMetricCfg :=
  { threshold := threshold, k := k
    quality_metric := ClassificationQualityMetricCfg.init none none }

/-- The fields of the `InputData` carrier and of the column-mapping resolution
that the two `calculate` bodies read.  `targetName` and `predictionName` are
the resolved utility columns of `process_columns`; `currentTarget` is the
current-data target column; `currentRows` is `data.current_data.shape[0]`;
`predTarget` and `predData` are the pair returned by
`get_target_prediction_data(data.current_data, data.column_mapping)` (that
call is deterministic, so its one value is carried as data);
`referenceTarget` is the reference-data target column when reference data is
present; `currentMatrix` and `referenceMatrix` are the confusion-matrix
dependency results read by the quality metric; `refPredTarget` and
`refPredData` are `get_target_prediction_data` on the reference data. -/
structure InputData (Label Probas Matrix : Type) where
  targetName : Option String
  predictionName : Option String
  currentTarget : List Label
  currentRows : Nat
  predTarget : List Label
  predData : PredictionData Label Probas
  referenceTarget : Option (List Label)
  currentMatrix : Matrix
  referenceMatrix : Option Matrix
  refPredTarget : List Label
  refPredData : PredictionData Label Probas

/-- Bundle of the external collaborators called by the two `calculate`
bodies, none of which are in the provided sources: `valueCounts` is pandas
`value_counts(normalize=True)` (index list and frequency list); `sample` is
`np.random.seed(s)` followed by `np.random.choice(index, n, p=freqs)`;
`uniqueLabels` is pandas `Series.unique`; `calculateMatrix` and
`calculateMetrics` are the shared calculator functions (the column-mapping
argument of `calculate_metrics`, passed through unchanged, is elided);
`classificationReport` is sklearn `classification_report(output_dict=True)`;
`kProbabilityThreshold` is the shared `k_probability_threshold`;
`probasWidth` is `prediction_probas.shape[1]`; `precisionScore` and
`recallScore` are sklearn scores with the given `pos_label`;
`logLossUniform target labels w` is sklearn `log_loss` of the one-hot
encoding of `target` against `labels` versus the uniform `1/w` prediction
matrix; `qualityCurrent` is the `current` field of the already-computed
result of the quality-metric dependency with the given configuration. -/
structure Externals (Label Matrix Probas Report : Type) where
  valueCounts : List Label → List Label × List ℚ
  sample : Nat → List Label × List ℚ → Nat → List Label
  uniqueLabels : List Label → List Label
  calculateMatrix : List Label → List Label → List Label → Matrix
  calculateMetrics : Matrix → List Label → PredictionData Label Probas →
    DatasetClassificationQuality
  classificationReport : List Label → List Label → Report
  kProbabilityThreshold : Probas → ℚ → ℚ
  probasWidth : Probas → Nat
  precisionScore : List Label → List Label → Label → ℚ
  recallScore : List Label → List Label → Label → ℚ
  logLossUniform : List Label → List Label → Nat → ℚ
  qualityCurrent : ClassificationQualityMetricCfg → DatasetClassificationQuality

/-- Coefficient multiplied onto `precision` inside
`correction_for_threshold` (lines 193-196 of
`classification_dummy_metric.py`): 1.0 when the threshold is exactly 1.0,
else `min(1.0, 0.5 / (1 - threshold))`. -/
def coeffPrecisionCorrection (threshold : ℚ) : ℚ :=
  if threshold = 1 then 1 else min 1 ((1 / 2) / (1 - threshold))

/-- Coefficient multiplied onto `recall` inside `correction_for_threshold`
(line 197): `min(1.0, (1 - threshold) / 0.5)`. -/
def coeffRecallCorrection (threshold : ℚ) : ℚ :=
  min 1 ((1 - threshold) / (1 / 2))

/-- Coefficient `coeff_recall` of the metrics-matrix correction inside
`calculate` (lines 107-110): 1.0 when the threshold is exactly 1.0, else
`min(1.0, 0.5 / (1 - threshold))`. -/
def coeffRecallMatrix (threshold : ℚ) : ℚ :=
  if threshold = 1 then 1 else min 1 ((1 / 2) / (1 - threshold))

/-- Coefficient `coeff_precision` of the metrics-matrix correction inside
`calculate` (line 111): `min(1.0, (1 - threshold) / 0.5)`. -/
def coeffPrecisionMatrix (threshold : ℚ) : ℚ :=
  min 1 ((1 - threshold) / (1 / 2))

/-- Denominator of the corrected-F1 division inside
`correction_for_threshold` (line 223):
`precision * coeff_precision + recall * coeff_recall`. -/
def f1Denom (q : DatasetClassificationQuality) (threshold : ℚ) : ℚ :=
  q.precision * coeffPrecisionCorrection threshold +
    q.recall * coeffRecallCorrection threshold

/-- `ClassificationDummyMetric.correction_for_threshold` (lines 185-230 of
`classification_dummy_metric.py`).  The Python signature also receives
`target`, `labels` and `probas_shape`, all unused in the body; they are
omitted here.  The tpr, tnr, fpr, fnr locals start as `None` and are filled
only when all four input rates are present; the returned record is a freshly
constructed `DatasetClassificationQuality`. -/
def correction_for_threshold (dummy_results : DatasetClassificationQuality)
    (threshold : ℚ) : DatasetClassificationQuality :=
  let coeff_precision := coeffPrecisionCorrection threshold
  let coeff_recall := coeffRecallCorrection threshold
  let rates :
      Option ℚ × Option ℚ × Option ℚ × Option ℚ :=
    match dummy_results.tpr, dummy_results.tnr, dummy_results.fpr,
        dummy_results.fnr with
    | some a, some b, some c, some e =>
        (some (a * coeff_recall), some (b * coeff_precision),
          some (c * coeff_recall), some (e * coeff_precision))
    | _, _, _, _ => (none, none, none, none)
  { accuracy := dummy_results.accuracy
    precision := dummy_results.precision * coeff_precision
    «recall» := dummy_results.recall * coeff_recall
    f1 := 2 * dummy_results.precision * coeff_precision *
        dummy_results.recall * coeff_recall / f1Denom dummy_results threshold
    roc_auc := some (1 / 2)
    log_loss := none
    tpr := rates.1
    tnr := rates.2.1
    fpr := rates.2.2.1
    fnr := rates.2.2.2 }

/-- Threshold resolution of `calculate` (lines 95-101 of
`classification_dummy_metric.py`).  The Python body runs two sequential
`if` statements: when the explicit threshold is set the local is first
assigned to it, and when k is set the local is then reassigned to the
k-derived threshold, so a set k overwrites a set explicit threshold; when
neither is set the local is 0.5.  `kDerived` is
`k_probability_threshold(prediction_probas, k)` when `k` is set.  The inner
`getD (1 / 2)` models the (unreachable) case of the Python local staying
unbound inside the first branch. -/
def resolveThreshold (threshold kDerived : Option ℚ) : ℚ :=
  if threshold.isSome || kDerived.isSome then
    kDerived.getD (threshold.getD (1 / 2))
  else 1 / 2

section Embedding

variable {L M P R : Type}

/-- The `target` series used by the dummy computations: the pair component of
`get_target_prediction_data` when a prediction column exists (line 70), else
the current-data target column (line 73). -/
def dummyTarget (d : InputData L P M) : List L :=
  if d.predictionName.isSome then d.predTarget else d.currentTarget

/-- The label list used by the dummy computations: the resolved prediction
labels when a prediction column exists (line 71), else the unique values of
the current target (line 74). -/
def dummyLabels (ext : Externals L M P R) (d : InputData L P M) : List L :=
  if d.predictionName.isSome then d.predData.labels
  else ext.uniqueLabels d.currentTarget

/-- The seed-0 dummy predictions of lines 64-67: sampled from the
current-data label frequencies, with length the current-data row count. -/
def dummyPreds0 (ext : Externals L M P R) (d : InputData L P M) : List L :=
  ext.sample 0 (ext.valueCounts d.currentTarget) d.currentRows

/-- The probability table visible to `calculate`: present exactly when a
prediction column exists and `prediction.prediction_probas` is not `None`. -/
def dummyProbas (d : InputData L P M) : Option P :=
  if d.predictionName.isSome then d.predData.prediction_probas else none

/-- The effective decision threshold of `calculate` (lines 95-101), via
`resolveThreshold`.  In the source the local is only assigned (and only
read) under the branch where probabilities are present; the value returned
here in the probability-free case is never consumed. -/
def dummyThreshold (s : ClassificationDummyMetricCfg)
    (ext : Externals L M P R) (d : InputData L P M) : ℚ :=
  match dummyProbas d with
  | some probas =>
      resolveThreshold s.threshold (s.k.map (ext.kProbabilityThreshold probas))
  | none => 1 / 2

/-- The `current_dummy` record as first constructed (lines 76-86):
`calculate_metrics` on the confusion matrix of the seed-0 dummy predictions
against the dummy target, with a probability-free `PredictionData`. -/
def dummyBase (ext : Externals L M P R) (d : InputData L P M) :
    DatasetClassificationQuality :=
  ext.calculateMetrics
    (ext.calculateMatrix (dummyTarget d) (dummyPreds0 ext d)
      (dummyLabels ext d))
    (dummyTarget d)
    { predictions := dummyPreds0 ext d, prediction_probas := none
      labels := dummyLabels ext d }

/-- The `by_reference_dummy` record as first constructed (lines 136-158):
seed-1 predictions sampled from the reference target's label frequencies,
with length the current-data row count, evaluated against the (current-data)
dummy target. -/
def refBase (ext : Externals L M P R) (d : InputData L P M)
    (refTarget : List L) : DatasetClassificationQuality :=
  ext.calculateMetrics
    (ext.calculateMatrix (dummyTarget d)
      (ext.sample 1 (ext.valueCounts refTarget) d.currentRows)
      (dummyLabels ext d))
    (dummyTarget d)
    { predictions := ext.sample 1 (ext.valueCounts refTarget) d.currentRows
      prediction_probas := none, labels := dummyLabels ext d }

/-- The binary threshold correction step shared by the current branch (lines
94-104) and the reference branch (lines 159-162): apply
`correction_for_threshold` exactly when probabilities are present and there
are exactly two labels. -/
def correctedStep (s : ClassificationDummyMetricCfg)
    (ext : Externals L M P R) (d : InputData L P M)
    (q : DatasetClassificationQuality) : DatasetClassificationQuality :=
  match dummyProbas d with
  | some _ =>
      if (dummyLabels ext d).length = 2 then
        correction_for_threshold q (dummyThreshold s ext d)
      else q
  | none => q

/-- The dummy log-loss and roc-auc step shared by the current branch (lines
126-131) and the reference branch (lines 163-171): when probabilities are
present, reassign the record's `log_loss` field to the uniform-prediction
log-loss and its `roc_auc` field to 0.5 (an in-place field mutation in the
source, a functional record update here). -/
def finalStep (s : ClassificationDummyMetricCfg) (ext : Externals L M P R)
    (d : InputData L P M) (q : DatasetClassificationQuality) :
    DatasetClassificationQuality :=
  let q2 := correctedStep s ext d q
  match dummyProbas d with
  | some probas =>
      { q2 with
        log_loss := some (ext.logLossUniform (dummyTarget d)
          (dummyLabels ext d) (ext.probasWidth probas))
        roc_auc := some (1 / 2) }
  | none => q2

/-- The negative-label corrected precision of the metrics-matrix correction
(line 112): `precision_score(target, dummy_preds, pos_label=labels[1])`
times `coeff_precision = min(1, (1 - threshold) / 0.5)`. -/
def negPrecisionOf [Inhabited L] (s : ClassificationDummyMetricCfg)
    (ext : Externals L M P R) (d : InputData L P M) : ℚ :=
  ext.precisionScore (dummyTarget d) (dummyPreds0 ext d)
      ((dummyLabels ext d).getD 1 default) *
    coeffPrecisionMatrix (dummyThreshold s ext d)

/-- The negative-label corrected recall of the metrics-matrix correction
(line 113): `recall_score(target, dummy_preds, pos_label=labels[1])` times
`coeff_recall` (1.0 at threshold 1.0, else `min(1, 0.5 / (1 - threshold))`). -/
def negRecallOf [Inhabited L] (s : ClassificationDummyMetricCfg)
    (ext : Externals L M P R) (d : InputData L P M) : ℚ :=
  ext.recallScore (dummyTarget d) (dummyPreds0 ext d)
      ((dummyLabels ext d).getD 1 default) *
    coeffRecallMatrix (dummyThreshold s ext d)

/-- The `metrics_matrix` of `calculate`: the sklearn report of lines 88-92,
replaced under the binary-with-probabilities branch by the corrected
two-label dict of lines 105-125 whose positive entry copies the corrected
`current_dummy` precision, recall and f1, and whose negative entry applies
the inverse coefficient assignment to the negative-label scores, with an
unguarded f1 division. -/
def dummyMetricsMatrix [Inhabited L] (s : ClassificationDummyMetricCfg)
    (ext : Externals L M P R) (d : InputData L P M) : MetricsMatrix L R :=
  match dummyProbas d with
  | some _ =>
      if (dummyLabels ext d).length = 2 then
        let cd := correctedStep s ext d (dummyBase ext d)
        MetricsMatrix.corrected ((dummyLabels ext d).getD 0 default)
          ((dummyLabels ext d).getD 1 default)
          { precision := cd.precision, «recall» := cd.recall, f1_score := cd.f1 }
          { precision := negPrecisionOf s ext d
            «recall» := negRecallOf s ext d
            f1_score := 2 * negPrecisionOf s ext d * negRecallOf s ext d /
              (negPrecisionOf s ext d + negRecallOf s ext d) }
      else MetricsMatrix.fromReport
        (ext.classificationReport (dummyTarget d) (dummyPreds0 ext d))
  | none => MetricsMatrix.fromReport
      (ext.classificationReport (dummyTarget d) (dummyPreds0 ext d))

/-- `ClassificationDummyMetric.calculate` (lines 50-183 of
`classification_dummy_metric.py`): error when the target column is missing;
otherwise the seed-0 dummy record (threshold-corrected and log-loss patched
as applicable), the optional seed-1 reference-frequency dummy record put
through the same two steps, the optional already-computed quality-dependency
result (present exactly when a prediction column exists), and the metrics
matrix. -/
def dummyCalculate [Inhabited L] (s : ClassificationDummyMetricCfg)
    (ext : Externals L M P R) (d : InputData L P M) :
    Except String (ClassificationDummyMetricResults L R) :=
  match d.targetName with
  | none => Except.error "The column target should present"
  | some _ =>
      Except.ok
        { dummy := finalStep s ext d (dummyBase ext d)
          by_reference_dummy :=
            match d.referenceTarget with
            | none => none
            | some rt => some (finalStep s ext d (refBase ext d rt))
          model_quality :=
            if d.predictionName.isSome then
              some (ext.qualityCurrent s.quality_metric)
            else none
          metrics_matrix := dummyMetricsMatrix s ext d }

/-- `ClassificationQualityMetric.calculate` (lines 41-68 of
`classification_quality_metric.py`): error when target or prediction is not
resolvable; current quality from the dependency's current matrix; when
reference data is present, error naming the missing dependency if its
reference matrix is absent, else the reference quality. -/
def qualityCalculate (ext : Externals L M P R) (d : InputData L P M) :
    Except String ClassificationQualityMetricResult :=
  match d.targetName, d.predictionName with
  | some target_name, some _ =>
      let current := ext.calculateMetrics d.currentMatrix d.predTarget d.predData
      (match d.referenceTarget with
      | none =>
          Except.ok { current := current, reference := none
                      target_name := target_name }
      | some _ =>
          match d.referenceMatrix with
          | none =>
              Except.error
                "Dependency ClassificationConfusionMatrix should have reference data"
          | some ref_matrix =>
              Except.ok
                { current := current
                  reference := some (ext.calculateMetrics ref_matrix
                    d.refPredTarget d.refPredData)
                  target_name := target_name })
  | _, _ =>
      Except.error "The columns target and prediction should be present"

end Embedding

/-- All-zero quality record used as a concrete evaluation point. -/
def qZero : DatasetClassificationQuality :=
  { accuracy := 0, precision := 0, «recall» := 0, f1 := 0, roc_auc := none
    log_loss := none, tpr := none, tnr := none, fpr := none, fnr := none }

/-- All-one quality record used as a concrete evaluation point. -/
def qOnes : DatasetClassificationQuality :=
  { accuracy := 1, precision := 1, «recall» := 1, f1 := 1, roc_auc := none
    log_loss := none, tpr := none, tnr := none, fpr := none, fnr := none }

/-- Quality record with populated optional fields, a concrete evaluation
point where the threshold correction visibly rebuilds fields. -/
def qFull : DatasetClassificationQuality :=
  { accuracy := 1, precision := 1 / 2, «recall» := 1 / 2, f1 := 9 / 10
    roc_auc := some (9 / 10), log_loss := some 1, tpr := some (1 / 4)
    tnr := some (1 / 3), fpr := some (1 / 5), fnr := some (1 / 6) }

/-- Concrete external-collaborator bundle for witnesses: every collaborator
returns a fixed simple value. -/
def extZ : Externals Nat Unit Unit Unit :=
  { valueCounts := fun t => (t, [1])
    sample := fun _ fr _ => fr.1
    uniqueLabels := fun t => t
    calculateMatrix := fun _ _ _ => ()
    calculateMetrics := fun _ _ _ => qZero
    classificationReport := fun _ _ => ()
    kProbabilityThreshold := fun _ _ => 3 / 10
    probasWidth := fun _ => 2
    precisionScore := fun _ _ _ => 0
    recallScore := fun _ _ _ => 0
    logLossUniform := fun _ _ _ => 693 / 1000
    qualityCurrent := fun _ => qOnes }

/-- Concrete input with a prediction column, a two-label probability table
and no reference data. -/
def dB : InputData Nat Unit Unit :=
  { targetName := some "target", predictionName := some "prediction"
    currentTarget := [1, 0], currentRows := 2
    predTarget := [1, 0]
    predData := { predictions := [1, 0], prediction_probas := some ()
                  labels := [0, 1] }
    referenceTarget := none, currentMatrix := (), referenceMatrix := none
    refPredTarget := []
    refPredData := { predictions := [], prediction_probas := none, labels := [] } }

/-- Concrete input with reference data present but no dependency reference
matrix. -/
def dRef : InputData Nat Unit Unit :=
  { dB with referenceTarget := some [1] }

/-- Concrete input with no prediction column and no reference data. -/
def dNoPred : InputData Nat Unit Unit :=
  { dB with predictionName := none }

/-- Concrete input with a probability table but three labels, so the binary
threshold correction does not trigger while the log-loss patch does. -/
def dProb3 : InputData Nat Unit Unit :=
  { dB with predData := { predictions := [1, 0], prediction_probas := some ()
                          labels := [0, 1, 2] } }

/-- Concrete input with a prediction column but no probability table. -/
def dNoProb : InputData Nat Unit Unit :=
  { dB with predData := { predictions := [1, 0], prediction_probas := none
                          labels := [0, 1] } }

/-- Concrete dummy-metric configuration with no explicit threshold or k. -/
def s0 : ClassificationDummyMetricCfg :=
  ClassificationDummyMetricCfg.init none none

/-- Concrete dummy-metric configuration with both an explicit threshold and
a k value set. -/
def sBoth : ClassificationDummyMetricCfg :=
  ClassificationDummyMetricCfg.init (some (7 / 10)) (some 1)

/-- Concrete dummy-metric configuration with only an explicit 0.7 threshold. -/
def sThr : ClassificationDummyMetricCfg :=
  ClassificationDummyMetricCfg.init (some (7 / 10)) none

/-- The metrics-matrix component of a dummy-metric `calculate` outcome, when
the calculation succeeded. -/
def mmOf {L R : Type} :
    Except String (ClassificationDummyMetricResults L R) → Option (MetricsMatrix L R)
  | Except.ok r => some r.metrics_matrix
  | Except.error _ => none

/-- The by-reference-dummy component of a dummy-metric `calculate` outcome,
when the calculation succeeded. -/
def byRefOf {L R : Type} :
    Except String (ClassificationDummyMetricResults L R) →
      Option (Option DatasetClassificationQuality)
  | Except.ok r => some r.by_reference_dummy
  | Except.error _ => none

/-- The concrete result of the dummy metric on `dProb3` under `s0`: the base
record `qZero` with its log-loss and roc-auc fields overwritten by the
uniform-prediction patch. -/
def rProb3 : ClassificationDummyMetricResults Nat Unit :=
  { dummy := { accuracy := 0, precision := 0, «recall» := 0, f1 := 0
               roc_auc := some (1 / 2), log_loss := some (693 / 1000)
               tpr := none, tnr := none, fpr := none, fnr := none }
    by_reference_dummy := none
    model_quality := some qOnes
    metrics_matrix := MetricsMatrix.fromReport () }

/-- The concrete result of the dummy metric on `dNoProb` under any
configuration: no probability table, so neither correction nor patch runs. -/
def rNoProb : ClassificationDummyMetricResults Nat Unit :=
  { dummy := qZero
    by_reference_dummy := none
    model_quality := some qOnes
    metrics_matrix := MetricsMatrix.fromReport () }

/-- Claim C9: at threshold exactly 1.0 the special case forces the
precision coefficient of `correction_for_threshold` to 1.0 instead of
evaluating `0.5 / (1 - threshold)` (whose denominator would be zero), and
the threshold-1.0 branch of the metrics-matrix coefficients likewise forces
its recall coefficient to 1.0; at threshold exactly 0.0 no coefficient
denominator is zero (`1 - 0 = 1` and the constant denominator is `0.5`),
the recall coefficient of `correction_for_threshold` evaluates through
`min(1, (1 - threshold)/0.5)` to 1.0, and the remaining coefficients
evaluate normally. -/
theorem boundary_thresholds_no_division_by_zero :
    coeffPrecisionCorrection 1 = 1 ∧ (1 - (1 : ℚ)) = 0 ∧
    coeffRecallMatrix 1 = 1 ∧
    coeffRecallCorrection 0 = 1 ∧ coeffPrecisionMatrix 0 = 1 ∧
    (1 - (0 : ℚ)) ≠ 0 ∧ ((1 : ℚ) / 2) ≠ 0 ∧
    coeffPrecisionCorrection 0 = 1 / 2 ∧ coeffRecallMatrix 0 = 1 / 2 := by
  refine ⟨?_, by norm_num, ?_, ?_, ?_, by norm_num, by norm_num, ?_, ?_⟩ <;>
    norm_num [coeffPrecisionCorrection, coeffRecallCorrection,
      coeffRecallMatrix, coeffPrecisionMatrix]

/-- Claim C4 counterexample: at threshold 0.5 `correction_for_threshold`
is not the identity on every field; on `qFull` the corrected record clears
log-loss (and forces roc-auc to 0.5 and recomputes f1), so it differs from
the input record. -/
theorem correction_half_identity_counterexample :
    correction_for_threshold qFull (1 / 2) ≠ qFull := by
  intro h
  have h2 := congrArg DatasetClassificationQuality.log_loss h
  simp [correction_for_threshold, qFull] at h2

/-- Claim C4 amended: at threshold 0.5 both correction coefficients
evaluate to 1.0 and the accuracy, precision, recall and (when all four are
present) tpr, tnr, fpr, fnr fields of the corrected record equal those of
the input; but f1 is recomputed as `2*p*r/(p + r)` from the input precision
and recall, roc-auc is forced to 0.5 and log-loss is cleared, so those three
fields need not equal the input fields. -/
theorem correction_half_amended (q : DatasetClassificationQuality) :
    coeffPrecisionCorrection (1 / 2) = 1 ∧ coeffRecallCorrection (1 / 2) = 1 ∧
    (correction_for_threshold q (1 / 2)).accuracy = q.accuracy ∧
    (correction_for_threshold q (1 / 2)).precision = q.precision ∧
    (correction_for_threshold q (1 / 2)).recall = q.recall ∧
    (correction_for_threshold q (1 / 2)).f1 =
      2 * q.precision * q.recall / (q.precision + q.recall) ∧
    (correction_for_threshold q (1 / 2)).roc_auc = some (1 / 2) ∧
    (correction_for_threshold q (1 / 2)).log_loss = none ∧
    (∀ a b c e, q.tpr = some a → q.tnr = some b → q.fpr = some c →
      q.fnr = some e →
      (correction_for_threshold q (1 / 2)).tpr = some a ∧
      (correction_for_threshold q (1 / 2)).tnr = some b ∧
      (correction_for_threshold q (1 / 2)).fpr = some c ∧
      (correction_for_threshold q (1 / 2)).fnr = some e) := by
  have hp : coeffPrecisionCorrection (1 / 2) = 1 := by
    norm_num [coeffPrecisionCorrection]
  have hr : coeffRecallCorrection (1 / 2) = 1 := by
    norm_num [coeffRecallCorrection]
  refine ⟨hp, hr, rfl, ?_, ?_, ?_, rfl, rfl, ?_⟩
  · show q.precision * coeffPrecisionCorrection (1 / 2) = q.precision
    rw [hp, mul_one]
  · show q.recall * coeffRecallCorrection (1 / 2) = q.recall
    rw [hr, mul_one]
  · show 2 * q.precision * coeffPrecisionCorrection (1 / 2) * q.recall *
        coeffRecallCorrection (1 / 2) /
        (q.precision * coeffPrecisionCorrection (1 / 2) +
          q.recall * coeffRecallCorrection (1 / 2)) =
      2 * q.precision * q.recall / (q.precision + q.recall)
    rw [hp, hr, mul_one, mul_one, mul_one, mul_one]
  · intro a b c e ha hb hc he
    refine ⟨?_, ?_, ?_, ?_⟩ <;>
      simp only [correction_for_threshold, ha, hb, hc, he, hp, hr, mul_one]

/-- Claim C4 witness: applying the amended theorem at `qFull`, whose four
binary rates are all present, yields the concrete preserved rates. -/
theorem correction_half_amended_witness :
    (correction_for_threshold qFull (1 / 2)).tpr = some (1 / 4) ∧
    (correction_for_threshold qFull (1 / 2)).tnr = some (1 / 3) ∧
    (correction_for_threshold qFull (1 / 2)).fpr = some (1 / 5) ∧
    (correction_for_threshold qFull (1 / 2)).fnr = some (1 / 6) :=
  (correction_half_amended qFull).2.2.2.2.2.2.2.2
    (1 / 4) (1 / 3) (1 / 5) (1 / 6) rfl rfl rfl rfl

/-- Claim C2 counterexample: with both an explicit threshold 0.7 and k set,
and the k-derived threshold equal to 0.3, the effective threshold used by
`calculate` is the k-derived 0.3, not the explicit 0.7. -/
theorem threshold_resolution_counterexample :
    sBoth.threshold = some (7 / 10) ∧ sBoth.k = some 1 ∧
    extZ.kProbabilityThreshold () 1 = 3 / 10 ∧
    dummyThreshold sBoth extZ dB = 3 / 10 ∧ (3 / 10 : ℚ) ≠ 7 / 10 :=
  ⟨rfl, rfl, rfl, rfl, by norm_num⟩

/-- Claim C2 amended: in the threshold resolution of `calculate`, a set k
takes precedence over a set explicit threshold (the second sequential
assignment overwrites the first); with only the explicit threshold set it is
used, with only k set the k-derived threshold is used, and with neither the
threshold is 0.5; and whenever probabilities are present the effective
threshold of `calculate` is exactly this resolution. -/
theorem threshold_resolution_amended (t kd : ℚ) :
    resolveThreshold (some t) (some kd) = kd ∧
    resolveThreshold (some t) none = t ∧
    resolveThreshold none (some kd) = kd ∧
    resolveThreshold none none = 1 / 2 ∧
    (∀ (L M P R : Type) [Inhabited L] (s : ClassificationDummyMetricCfg)
      (ext : Externals L M P R) (d : InputData L P M) (probas : P),
      dummyProbas d = some probas →
      dummyThreshold s ext d =
        resolveThreshold s.threshold
          (s.k.map (ext.kProbabilityThreshold probas))) := by
  refine ⟨rfl, rfl, rfl, rfl, ?_⟩
  intro L M P R _ s ext d probas hp
  simp [dummyThreshold, hp]

/-- Claim C2 witness: the resolution identity applied at the concrete
configuration `sBoth` and input `dB`. -/
theorem threshold_resolution_amended_witness :
    dummyThreshold sBoth extZ dB =
      resolveThreshold sBoth.threshold
        (sBoth.k.map (extZ.kProbabilityThreshold ())) :=
  (threshold_resolution_amended 0 0).2.2.2.2 Nat Unit Unit Unit sBoth extZ dB () rfl

/-- Claim C8: the corrected-F1 division of `correction_for_threshold` is by
`precision*coeff_precision + recall*coeff_recall` with no guard, and on an
input record whose precision and recall are both zero (so both corrected
values are zero) that denominator is exactly zero; likewise the
negative-label f1-score division of the metrics-matrix correction has
denominator `neg_precision + neg_recall`, which is exactly zero on a run
where both negative-label scores are zero.  (The rational embedding makes
division total, so reaching a zero denominator is the embedded form of the
undefined float result.) -/
theorem corrected_f1_division_unguarded :
    f1Denom qZero (1 / 2) = 0 ∧
    (∀ (q : DatasetClassificationQuality) (t : ℚ),
      (correction_for_threshold q t).f1 =
        2 * q.precision * coeffPrecisionCorrection t * q.recall *
          coeffRecallCorrection t / f1Denom q t) ∧
    (correction_for_threshold qZero (1 / 2)).precision = 0 ∧
    (correction_for_threshold qZero (1 / 2)).recall = 0 ∧
    negPrecisionOf s0 extZ dB = 0 ∧ negRecallOf s0 extZ dB = 0 ∧
    negPrecisionOf s0 extZ dB + negRecallOf s0 extZ dB = 0 := by
  refine ⟨?_, fun q t => rfl, ?_, ?_, ?_, ?_, ?_⟩ <;>
    simp [f1Denom, correction_for_threshold, negPrecisionOf, negRecallOf,
      qZero, extZ]

/-- Claim C5: `ClassificationQualityMetric.calculate` fails exactly when the
target or prediction column is unresolvable, or when reference data is
present but the confusion-matrix dependency produced no reference matrix;
in the latter case the error names the missing dependency; otherwise no
error is produced. -/
theorem quality_error_conditions {L M P R : Type} (ext : Externals L M P R)
    (d : InputData L P M) :
    ((∃ e, qualityCalculate ext d = Except.error e) ↔
      ((d.targetName = none ∨ d.predictionName = none) ∨
        (d.referenceTarget.isSome ∧ d.referenceMatrix = none))) ∧
    (d.targetName.isSome = true → d.predictionName.isSome = true →
      d.referenceTarget.isSome = true → d.referenceMatrix = none →
      qualityCalculate ext d = Except.error
        "Dependency ClassificationConfusionMatrix should have reference data") := by
  rcases htn : d.targetName with _ | tn <;>
    rcases hpn : d.predictionName with _ | pn <;>
      rcases hrt : d.referenceTarget with _ | rt <;>
        rcases hrm : d.referenceMatrix with _ | rm <;>
          simp [qualityCalculate, htn, hpn, hrt, hrm]

/-- Claim C5 witness: on the concrete input with reference data and no
dependency reference matrix, the error names the missing dependency. -/
theorem quality_error_conditions_witness :
    qualityCalculate extZ dRef = Except.error
      "Dependency ClassificationConfusionMatrix should have reference data" :=
  (quality_error_conditions extZ dRef).2 rfl rfl rfl rfl

/-- Claim C6: `ClassificationDummyMetric.calculate` fails (with the
target-column message) exactly when the target column is unresolvable; and
on any input with a resolvable target, no prediction column and no
reference data it succeeds with no model quality, no by-reference dummy,
and a dummy record computed by `calculate_metrics` from the seed-0 sampled
predictions against the true target, with the unique target values as
labels. -/
theorem dummy_requires_target_only {L M P R : Type} [Inhabited L]
    (s : ClassificationDummyMetricCfg) (ext : Externals L M P R)
    (d : InputData L P M) (h2 : d.predictionName = none)
    (h3 : d.referenceTarget = none) :
    (dummyCalculate s ext d = Except.error "The column target should present" ↔
      d.targetName = none) ∧
    (∀ tn, d.targetName = some tn →
      dummyCalculate s ext d = Except.ok
        { dummy := ext.calculateMetrics
            (ext.calculateMatrix d.currentTarget
              (ext.sample 0 (ext.valueCounts d.currentTarget) d.currentRows)
              (ext.uniqueLabels d.currentTarget))
            d.currentTarget
            { predictions :=
                ext.sample 0 (ext.valueCounts d.currentTarget) d.currentRows
              prediction_probas := none
              labels := ext.uniqueLabels d.currentTarget }
          by_reference_dummy := none
          model_quality := none
          metrics_matrix := MetricsMatrix.fromReport
            (ext.classificationReport d.currentTarget
              (ext.sample 0 (ext.valueCounts d.currentTarget) d.currentRows)) }) := by
  constructor
  · rcases htn : d.targetName with _ | tn <;> simp [dummyCalculate, htn]
  · intro tn htn
    simp [dummyCalculate, htn, h2, h3, dummyMetricsMatrix, dummyProbas,
      finalStep, correctedStep, dummyBase, dummyTarget, dummyLabels,
      dummyPreds0]

/-- Claim C6 witness: the no-prediction no-reference success applied on the
concrete input `dNoPred`. -/
theorem dummy_requires_target_only_witness :
    dummyCalculate s0 extZ dNoPred = Except.ok
      { dummy := extZ.calculateMetrics
          (extZ.calculateMatrix dNoPred.currentTarget
            (extZ.sample 0 (extZ.valueCounts dNoPred.currentTarget)
              dNoPred.currentRows)
            (extZ.uniqueLabels dNoPred.currentTarget))
          dNoPred.currentTarget
          { predictions :=
              extZ.sample 0 (extZ.valueCounts dNoPred.currentTarget)
                dNoPred.currentRows
            prediction_probas := none
            labels := extZ.uniqueLabels dNoPred.currentTarget }
        by_reference_dummy := none
        model_quality := none
        metrics_matrix := MetricsMatrix.fromReport
          (extZ.classificationReport dNoPred.currentTarget
            (extZ.sample 0 (extZ.valueCounts dNoPred.currentTarget)
              dNoPred.currentRows)) } :=
  (dummy_requires_target_only s0 extZ dNoPred rfl rfl).2 "target" rfl

/-- Claim C7: with reference data present, the by-reference dummy is the
record computed from a seed-1 sample whose probabilities come from the
reference target's label frequencies and whose length is the current
dataset's row count, evaluated (matrix and metrics) against the dummy
target, which is a current-dataset column (the resolved current prediction
target if a prediction column exists, else the current target column) and
never the reference target. -/
theorem reference_dummy_current_rows_and_target {L M P R : Type} [Inhabited L]
    (s : ClassificationDummyMetricCfg) (ext : Externals L M P R)
    (d : InputData L P M) (tn : String) (rt : List L)
    (h1 : d.targetName = some tn) (h2 : d.referenceTarget = some rt) :
    byRefOf (dummyCalculate s ext d) = some (some (finalStep s ext d
      (ext.calculateMetrics
        (ext.calculateMatrix (dummyTarget d)
          (ext.sample 1 (ext.valueCounts rt) d.currentRows)
          (dummyLabels ext d))
        (dummyTarget d)
        { predictions := ext.sample 1 (ext.valueCounts rt) d.currentRows
          prediction_probas := none, labels := dummyLabels ext d }))) ∧
    dummyTarget d =
      (if d.predictionName.isSome then d.predTarget else d.currentTarget) := by
  refine ⟨?_, rfl⟩
  simp [dummyCalculate, h1, h2, byRefOf, refBase]

/-- Claim C7 witness: the by-reference dummy shape applied on the concrete
input `dRef`. -/
theorem reference_dummy_current_rows_and_target_witness :
    byRefOf (dummyCalculate s0 extZ dRef) = some (some (finalStep s0 extZ dRef
      (extZ.calculateMetrics
        (extZ.calculateMatrix (dummyTarget dRef)
          (extZ.sample 1 (extZ.valueCounts [1]) dRef.currentRows)
          (dummyLabels extZ dRef))
        (dummyTarget dRef)
        { predictions := extZ.sample 1 (extZ.valueCounts [1]) dRef.currentRows
          prediction_probas := none, labels := dummyLabels extZ dRef }))) :=
  (reference_dummy_current_rows_and_target s0 extZ dRef "target" [1] rfl rfl).1

/-- Claim C3 counterexample: the dummy record is not unchanged between its
construction and its inclusion in the results.  On `dProb3` (probability
table present, three labels) the record built by `calculate_metrics` and
left untouched by the correction step has no log-loss, while the record
included in the returned results carries the uniform-prediction log-loss:
`calculate` reassigned the field after construction. -/
theorem record_not_immutable_counterexample :
    dummyCalculate s0 extZ dProb3 = Except.ok rProb3 ∧
    rProb3.dummy.log_loss = some (693 / 1000) ∧
    (correctedStep s0 extZ dProb3 (dummyBase extZ dProb3)).log_loss = none ∧
    (dummyBase extZ dProb3).log_loss = none :=
  ⟨rfl, rfl, rfl, rfl⟩

/-- Claim C3 amended: `correction_for_threshold` itself builds a new record
and `calculate` keeps every field of the constructed (possibly corrected)
record except `log_loss` and `roc_auc`, which it reassigns when a
probability table is present; when no probability table is present the
included record equals the constructed record exactly. -/
theorem record_mutation_only_log_loss_roc_auc {L M P R : Type} [Inhabited L]
    (s : ClassificationDummyMetricCfg) (ext : Externals L M P R)
    (d : InputData L P M) (r : ClassificationDummyMetricResults L R)
    (h : dummyCalculate s ext d = Except.ok r) :
    r.dummy.accuracy = (correctedStep s ext d (dummyBase ext d)).accuracy ∧
    r.dummy.precision = (correctedStep s ext d (dummyBase ext d)).precision ∧
    r.dummy.recall = (correctedStep s ext d (dummyBase ext d)).recall ∧
    r.dummy.f1 = (correctedStep s ext d (dummyBase ext d)).f1 ∧
    r.dummy.tpr = (correctedStep s ext d (dummyBase ext d)).tpr ∧
    r.dummy.tnr = (correctedStep s ext d (dummyBase ext d)).tnr ∧
    r.dummy.fpr = (correctedStep s ext d (dummyBase ext d)).fpr ∧
    r.dummy.fnr = (correctedStep s ext d (dummyBase ext d)).fnr ∧
    (dummyProbas d = none → r.dummy = dummyBase ext d) := by
  rcases htn : d.targetName with _ | tn
  · simp [dummyCalculate, htn] at h
  · simp only [dummyCalculate, htn, Except.ok.injEq] at h
    subst h
    rcases hpp : dummyProbas (M := M) d with _ | probas <;>
      simp [finalStep, correctedStep, hpp]

/-- Claim C3 witness: the field-preservation fact applied on the concrete
input `dProb3`. -/
theorem record_mutation_only_log_loss_roc_auc_witness :
    rProb3.dummy.accuracy =
      (correctedStep s0 extZ dProb3 (dummyBase extZ dProb3)).accuracy :=
  (record_mutation_only_log_loss_roc_auc s0 extZ dProb3 rProb3 rfl).1

/-- Claim C10: the dummy metric's constructor builds its quality-metric
dependency with no threshold and no k, so for every configuration of the
dummy metric the model-quality component of a successful result is the
dependency result under the default (absent) threshold and k
configuration, independent of the dummy metric's own threshold and k. -/
theorem model_quality_uses_default_config {L M P R : Type} [Inhabited L]
    (t k : Option ℚ) (ext : Externals L M P R) (d : InputData L P M)
    (r : ClassificationDummyMetricResults L R)
    (h : dummyCalculate (ClassificationDummyMetricCfg.init t k) ext d =
      Except.ok r) :
    (ClassificationDummyMetricCfg.init t k).quality_metric =
      ClassificationQualityMetricCfg.init none none ∧
    r.model_quality = (if d.predictionName.isSome then
      some (ext.qualityCurrent (ClassificationQualityMetricCfg.init none none))
      else none) := by
  refine ⟨rfl, ?_⟩
  rcases htn : d.targetName with _ | tn
  · simp [dummyCalculate, htn] at h
  · simp only [dummyCalculate, htn, Except.ok.injEq] at h
    subst h
    rfl

/-- Claim C10 witness: applied at a configuration with both a custom
threshold and a custom k on the concrete input `dNoProb`. -/
theorem model_quality_uses_default_config_witness :
    (ClassificationDummyMetricCfg.init (some (7 / 10)) (some 1)).quality_metric =
      ClassificationQualityMetricCfg.init none none ∧
    rNoProb.model_quality = (if dNoProb.predictionName.isSome then
      some (extZ.qualityCurrent (ClassificationQualityMetricCfg.init none none))
      else none) :=
  model_quality_uses_default_config (some (7 / 10)) (some 1) extZ dNoProb
    rNoProb rfl

/-- Claim C1 counterexample: at the claim's own threshold 0.7,
`correction_for_threshold` multiplies precision by 1.0 (not by
`min(1, 0.3/0.5) = 0.6`) and recall by 0.6 (not by 1.0): on the record with
precision and recall 1, the corrected precision is 1 and the corrected
recall is 3/5, refuting the claimed coefficient assignment. -/
theorem correction_coefficients_counterexample :
    (correction_for_threshold qOnes (7 / 10)).precision = 1 ∧
    (1 : ℚ) ≠ 3 / 5 * qOnes.precision ∧
    (correction_for_threshold qOnes (7 / 10)).recall = 3 / 5 ∧
    (3 / 5 : ℚ) ≠ qOnes.recall := by
  refine ⟨?_, by norm_num [qOnes], ?_, by norm_num [qOnes]⟩
  · show qOnes.precision * coeffPrecisionCorrection (7 / 10) = 1
    norm_num [qOnes, coeffPrecisionCorrection]
  · show qOnes.recall * coeffRecallCorrection (7 / 10) = 3 / 5
    norm_num [qOnes, coeffRecallCorrection]

/-- Claim C1 amended: the coefficient assignment is the transpose of the
claimed one.  In `correction_for_threshold` the precision coefficient is
`min(1, 0.5/(1-threshold))` (1.0 if threshold is 1.0) and the recall
coefficient is `min(1, (1-threshold)/0.5)`, so at threshold 0.7 precision
is multiplied by 1.0 and recall by 0.6; and the per-class `metrics_matrix`
entry for the negative label uses the inverse assignment — its precision is
scaled by `min(1, (1-threshold)/0.5) = 0.6` and its recall by the capped
`min(1, 0.5/(1-threshold)) = 1.0` — while the positive-label entry copies
the corrected record. -/
theorem correction_coefficients_amended {L M P R : Type} [Inhabited L]
    (qm : ClassificationQualityMetricCfg) (ext : Externals L M P R)
    (d : InputData L P M) (q : DatasetClassificationQuality)
    (tn pn : String) (probas : P) (l0 l1 : L)
    (htn : d.targetName = some tn) (hpn : d.predictionName = some pn)
    (hpr : d.predData.prediction_probas = some probas)
    (hl : d.predData.labels = [l0, l1]) :
    coeffPrecisionCorrection (7 / 10) = 1 ∧
    coeffRecallCorrection (7 / 10) = 3 / 5 ∧
    coeffPrecisionMatrix (7 / 10) = 3 / 5 ∧
    coeffRecallMatrix (7 / 10) = 1 ∧
    (correction_for_threshold q (7 / 10)).precision = q.precision ∧
    (correction_for_threshold q (7 / 10)).recall = 3 / 5 * q.recall ∧
    mmOf (dummyCalculate
        { threshold := some (7 / 10), k := none, quality_metric := qm }
        ext d) =
      some (MetricsMatrix.corrected l0 l1
        { precision :=
            (correction_for_threshold (dummyBase ext d) (7 / 10)).precision
          «recall» :=
            (correction_for_threshold (dummyBase ext d) (7 / 10)).recall
          f1_score :=
            (correction_for_threshold (dummyBase ext d) (7 / 10)).f1 }
        { precision :=
            ext.precisionScore d.predTarget (dummyPreds0 ext d) l1 * (3 / 5)
          «recall» := ext.recallScore d.predTarget (dummyPreds0 ext d) l1
          f1_score :=
            2 * (ext.precisionScore d.predTarget (dummyPreds0 ext d) l1 *
                (3 / 5)) *
              ext.recallScore d.predTarget (dummyPreds0 ext d) l1 /
            (ext.precisionScore d.predTarget (dummyPreds0 ext d) l1 * (3 / 5) +
              ext.recallScore d.predTarget (dummyPreds0 ext d) l1) }) := by
  have hcp : coeffPrecisionCorrection (7 / 10) = 1 := by
    norm_num [coeffPrecisionCorrection]
  have hcr : coeffRecallCorrection (7 / 10) = 3 / 5 := by
    norm_num [coeffRecallCorrection]
  have hcpm : coeffPrecisionMatrix (7 / 10) = 3 / 5 := by
    norm_num [coeffPrecisionMatrix]
  have hcrm : coeffRecallMatrix (7 / 10) = 1 := by
    norm_num [coeffRecallMatrix]
  refine ⟨hcp, hcr, hcpm, hcrm, ?_, ?_, ?_⟩
  · show q.precision * coeffPrecisionCorrection (7 / 10) = q.precision
    rw [hcp, mul_one]
  · show q.recall * coeffRecallCorrection (7 / 10) = 3 / 5 * q.recall
    rw [hcr, mul_comm]
  · have hps : dummyProbas (M := M) d = some probas := by
      simp [dummyProbas, hpn, hpr]
    have hlab : dummyLabels ext d = [l0, l1] := by
      simp [dummyLabels, hpn, hl]
    have htar : dummyTarget (M := M) d = d.predTarget := by
      simp [dummyTarget, hpn]
    have hth : dummyThreshold
        { threshold := some (7 / 10), k := none, quality_metric := qm }
        ext d = 7 / 10 := by
      simp [dummyThreshold, hps, resolveThreshold]
    simp only [dummyCalculate, htn, mmOf, dummyMetricsMatrix, correctedStep,
      negPrecisionOf, negRecallOf, hps, hlab, htar, hth, hcpm, hcrm, mul_one,
      List.length_cons, List.length_nil, List.getD, List.getElem?_cons_zero,
      List.getElem?_cons_succ, Option.getD_some, if_true]
    norm_num

/-- Claim C1 witness: the metrics-matrix component of the amended theorem
applied on the concrete input `dB` with explicit threshold 0.7. -/
theorem correction_coefficients_amended_witness :
    mmOf (dummyCalculate
        { threshold := some (7 / 10), k := none
          quality_metric := ClassificationQualityMetricCfg.init none none }
        extZ dB) =
      some (MetricsMatrix.corrected 0 1
        { precision :=
            (correction_for_threshold (dummyBase extZ dB) (7 / 10)).precision
          «recall» :=
            (correction_for_threshold (dummyBase extZ dB) (7 / 10)).recall
          f1_score :=
            (correction_for_threshold (dummyBase extZ dB) (7 / 10)).f1 }
        { precision :=
            extZ.precisionScore dB.predTarget (dummyPreds0 extZ dB) 1 * (3 / 5)
          «recall» := extZ.recallScore dB.predTarget (dummyPreds0 extZ dB) 1
          f1_score :=
            2 * (extZ.precisionScore dB.predTarget (dummyPreds0 extZ dB) 1 *
                (3 / 5)) *
              extZ.recallScore dB.predTarget (dummyPreds0 extZ dB) 1 /
            (extZ.precisionScore dB.predTarget (dummyPreds0 extZ dB) 1 *
                (3 / 5) +
              extZ.recallScore dB.predTarget (dummyPreds0 extZ dB) 1) }) :=
  (correction_coefficients_amended
    (ClassificationQualityMetricCfg.init none none) extZ dB qOnes
    "target" "prediction" () 0 1 rfl rfl rfl rfl).2.2.2.2.2.2

end Evidently
